import Mathlib

/-!
Shallow embedding of the realtime speech-translation bridge
(src/app.py and src/utils.py): the playback ring buffer callback,
the `SimpleRealtime` client (connect / disconnect / send / receive /
message handler), and the `StreamingAudioRecorder` capture FIFO.

Python values that cross the JSON boundary are modelled by `PyVal`;
Python exceptions are modelled by the `RTError` type, and functions
that can raise return `Except RTError _` or pair their result with
`Option RTError` when mutations made before the raise must survive.
-/

namespace Spec2Proof

/-- Python/JSON values as they appear in events: `None`, strings,
integers, booleans, lists and string-keyed dictionaries. -/
inductive PyVal where
  | none : PyVal
  | str : String → PyVal
  | int : Int → PyVal
  | bool : Bool → PyVal
  | list : List PyVal → PyVal
  | dict : List (String × PyVal) → PyVal

/-- Python `v == s` for a string literal `s`: true exactly when `v` is the
string `s`; comparison with a non-string value is `False`, never an error. -/
def pyEqStr (v : PyVal) (s : String) : Bool :=
  match v with
  | .str t => t = s
  | _ => false

/-- Python truthiness, as used by `data = data or {}` in `SimpleRealtime.send`:
`None`, `0`, `""`, `[]` and `{}` are falsy, everything else is truthy. -/
def truthy : PyVal → Bool
  | .none => false
  | .str s => s ≠ ""
  | .int n => n ≠ 0
  | .bool b => b
  | .list l => ¬ l.isEmpty
  | .dict d => ¬ d.isEmpty

/-- Exceptions raised by the embedded code. -/
inductive RTError where
  | alreadyConnected
  | notConnected
  | invalidPayload
  | typeError
  | attributeError
  | decodeFailure
  | binasciiError
  | valueError
deriving DecidableEq, Repr

/-- `event.get(key)`: on a dict returns the value for the first binding of
`key` (or `None` when absent); on any non-dict value, `.get` raises
`AttributeError`. -/
def pyDictGet (event : PyVal) (key : String) : Except RTError PyVal :=
  match event with
  | .dict d => .ok (((d.find? fun p => p.1 = key).map Prod.snd).getD .none)
  | _ => .error .attributeError

/-- Whether `needle` occurs as a contiguous substring of `hay`
(character-list version). -/
def listContainsSub (hay needle : List Char) : Bool :=
  needle.isPrefixOf hay ||
    match hay with
    | [] => false
    | _ :: t => listContainsSub t needle

/-- Python `needle in hay` as used by `SimpleRealtime.receive`: a
substring test on a string, a membership test on a list, a key test on
a dict; on non-iterable values (`None` — in particular when the `type`
field is absent and `event.get("type")` returned `None` — numbers and
booleans) it raises `TypeError`. -/
def pyIn (needle : String) (hay : PyVal) : Except RTError Bool :=
  match hay with
  | .str s => .ok (listContainsSub s.data needle.data)
  | .list l => .ok (l.any fun v => pyEqStr v needle)
  | .dict d => .ok (d.any fun p => p.1 = needle)
  | _ => .error .typeError

/-! ## Playback callback (src/app.py)

`sd_audio_cb` (and the identical `py_audio_callback` inside
`start_audio_stream`) serves the output device from the global
`audio_buffer` of int16 samples, under `buffer_lock`. -/

/-- `sd_audio_cb` from src/app.py, lines 52-61 (the nested
`py_audio_callback` of `start_audio_stream` has the same body): when at
least `frame_count` samples are buffered it returns the first
`frame_count` samples and removes them from the buffer; otherwise it
returns `frame_count` zero samples and leaves the buffer untouched.
Result: (data returned to the device, new buffer contents). -/
def sd_audio_cb (audio_buffer : List Int) (frame_count : Nat) :
    List Int × List Int :=
  if frame_count ≤ audio_buffer.length then
    (audio_buffer.take frame_count, audio_buffer.drop frame_count)
  else
    (List.replicate frame_count 0, audio_buffer)

/-- `audio_buffer_cb` from src/app.py: appends a decoded PCM chunk to the
global playback buffer (`np.concatenate`). -/
def audio_buffer_cb (audio_buffer chunk : List Int) : List Int :=
  audio_buffer ++ chunk

/-! ## Base64 / PCM decoding (stdlib calls made by `handle_audio`)

`base64.b64decode` and `np.frombuffer(..., dtype=np.int16)` are library
calls, embedded with CPython's semantics: `b64decode` runs
`binascii.a2b_base64` in its default non-strict mode (non-alphabet
characters are discarded, padding is enforced, decoding stops at a
completed padding sequence), and `frombuffer` requires an even byte
count. -/

/-- Position of a character in the standard base64 alphabet, if any. -/
def b64_char_index (c : Char) : Option Nat :=
  if 'A' ≤ c ∧ c ≤ 'Z' then some (c.toNat - 65)
  else if 'a' ≤ c ∧ c ≤ 'z' then some (c.toNat - 97 + 26)
  else if '0' ≤ c ∧ c ≤ '9' then some (c.toNat - 48 + 52)
  else if c = '+' then some 62
  else if c = '/' then some 63
  else none

/-- The decode loop of `binascii.a2b_base64` in its default non-strict
mode: characters outside the alphabet (other than `=`) are discarded;
a data character advances the quad position, emitting one byte from
positions 1, 2 and 3; a `=` at quad position 2 or 3 that completes the
padding ends decoding with the bytes emitted so far (a `=` elsewhere is
skipped); input exhausted at a nonzero quad position is an error
(`Incorrect padding`, or a lone data character). State: remaining
characters, quad position (0-3), pending 6-bit remainder, count of
pending pad characters, bytes emitted. -/
def a2b_base64_loop :
    List Char → Nat → Nat → Nat → List Nat → Option (List Nat)
  | [], quad_pos, _, _, acc =>
    if quad_pos = 0 then some acc else Option.none
  | c :: rest, quad_pos, leftchar, pads, acc =>
    if c = '=' then
      if 2 ≤ quad_pos then
        if 4 ≤ quad_pos + (pads + 1) then some acc
        else a2b_base64_loop rest quad_pos leftchar (pads + 1) acc
      else a2b_base64_loop rest quad_pos leftchar pads acc
    else
      match b64_char_index c with
      | Option.none => a2b_base64_loop rest quad_pos leftchar pads acc
      | some v =>
        match quad_pos with
        | 0 => a2b_base64_loop rest 1 v 0 acc
        | 1 => a2b_base64_loop rest 2 (v % 16) 0 (acc ++ [leftchar * 4 + v / 16])
        | 2 => a2b_base64_loop rest 3 (v % 4) 0 (acc ++ [leftchar * 16 + v / 4])
        | _ => a2b_base64_loop rest 0 0 0 (acc ++ [leftchar * 64 + v])

/-- `base64.b64decode` on a string argument: the string is first
ASCII-encoded (a non-ASCII character raises), then decoded by
`binascii.a2b_base64` in non-strict mode (`validate=False`), which
discards non-alphabet characters and enforces padding as in
`a2b_base64_loop`; `Option.none` stands for the raised
`binascii.Error`/`ValueError`. -/
def b64decode (s : String) : Option (List Nat) :=
  if s.data.all (fun c => c.toNat < 128) then
    a2b_base64_loop s.data 0 0 0 []
  else Option.none

/-- `np.frombuffer(bytes, dtype=np.int16)`: pairs of little-endian bytes
become signed 16-bit samples; an odd byte count raises `ValueError`. -/
def np_frombuffer_int16 : List Nat → Option (List Int)
  | [] => some []
  | [_] => Option.none
  | lo :: hi :: rest =>
    (np_frombuffer_int16 rest).map fun tail =>
      (let v : Nat := lo % 256 + 256 * (hi % 256)
       if v < 32768 then (v : Int) else (v : Int) - 65536) :: tail

/-- The audio-delta payload path of `handle_audio`:
`np.frombuffer(base64.b64decode(chunk), dtype=np.int16)`. -/
def b64decode_pcm16 (s : String) : Except RTError (List Int) :=
  match b64decode s with
  | Option.none => .error .binasciiError
  | some bytes =>
    match np_frombuffer_int16 bytes with
    | Option.none => .error .valueError
    | some samples => .ok samples

/-! ## SimpleRealtime (src/utils.py, lines 18-123)

The client state merges the `SimpleRealtime` fields with the app-side
playback buffer that `audio_buffer_cb` appends to; `sent` records the
serialized events handed to `ws.send` tasks, and `logs` records
`log_event` entries (direction, event) without the wall-clock
timestamp. -/

/-- The websocket handle: `ws.open` is the transport's open flag. -/
structure WSConn where
  is_open : Bool
deriving DecidableEq, Repr

/-- State of a `SimpleRealtime` client (plus the playback buffer fed by
its `audio_buffer_cb`). -/
structure SimpleRealtime where
  ws : Option WSConn
  message_handler_task : Option Unit
  transcript : String
  logs : List (String × PyVal)
  sent : List PyVal
  debug : Bool
  has_audio_cb : Bool
  audio_buffer : List Int

/-- `SimpleRealtime.is_connected`: the handle exists and reports open. -/
def is_connected (s : SimpleRealtime) : Bool :=
  match s.ws with
  | some w => w.is_open
  | Option.none => false

/-- `SimpleRealtime.log_event`: in debug mode appends
(direction, event) to the log; otherwise does nothing. -/
def log_event (s : SimpleRealtime) (event_type : String) (event : PyVal) :
    SimpleRealtime :=
  if s.debug then { s with logs := s.logs ++ [(event_type, event)] } else s

/-- `SimpleRealtime.connect`: raises `Exception("Already connected")`
when `is_connected()`; otherwise the handshake outcome (an external
`websockets.connect` call, passed in as `handshake`) either raises or
installs the new socket and starts the message-handler task. The
`model` argument only selects the URL. -/
def connect (s : SimpleRealtime) (model : String)
    (handshake : Except RTError WSConn) : Except RTError SimpleRealtime :=
  if is_connected s then .error .alreadyConnected
  else
    match handshake with
    | .error e => .error e
    | .ok w =>
      let _ := model
      .ok { s with ws := some w, message_handler_task := some () }

/-- `SimpleRealtime.disconnect`: closes and clears the socket if present,
cancels and clears the handler task; total (never raises) and callable
from any state. -/
def disconnect (s : SimpleRealtime) : SimpleRealtime :=
  let s :=
    match s.ws with
    | some _ => { s with ws := Option.none }
    | Option.none => s
  { s with message_handler_task := Option.none }

/-- `SimpleRealtime.handle_audio` (src/utils.py lines 93-101): appends a
transcript delta when the type is `response.audio_transcript.delta`;
decodes and forwards an audio delta to `audio_buffer_cb` when the type
is `response.audio.delta` and a callback is installed. Returns the
state as mutated up to the first raised error (if any). -/
def handle_audio (s : SimpleRealtime) (event : PyVal) :
    SimpleRealtime × Option RTError :=
  match pyDictGet event "type" with
  | .error e => (s, some e)
  | .ok t =>
    let step1 : SimpleRealtime × Option RTError :=
      if pyEqStr t "response.audio_transcript.delta" then
        match pyDictGet event "delta" with
        | .error e => (s, some e)
        | .ok (.str d) => ({ s with transcript := s.transcript ++ d }, Option.none)
        | .ok _ => (s, some .typeError)
      else (s, Option.none)
    match step1 with
    | (s1, some e) => (s1, some e)
    | (s1, Option.none) =>
      if pyEqStr t "response.audio.delta" ∧ s1.has_audio_cb then
        match pyDictGet event "delta" with
        | .error e => (s1, some e)
        | .ok (.str b64) =>
          match b64decode_pcm16 b64 with
          | .error e => (s1, some e)
          | .ok samples =>
            ({ s1 with audio_buffer := audio_buffer_cb s1.audio_buffer samples },
             Option.none)
        | .ok _ => (s1, some .typeError)
      else (s1, Option.none)

/-- `SimpleRealtime.receive` (src/utils.py lines 103-107): logs the
event, then dispatches to `handle_audio` when `"response.audio"` occurs
in the event's type; `event.get("type")` on a non-dict event raises
`AttributeError`, and the `in` test raises `TypeError` when the type
field is a non-iterable value (e.g. the `None` returned when it is
absent). Mutations made before a raise (the log entry) survive. -/
def receive (s : SimpleRealtime) (event : PyVal) :
    SimpleRealtime × Option RTError :=
  let s := log_event s "server" event
  match pyDictGet event "type" with
  | .error e => (s, some e)
  | .ok t =>
    match pyIn "response.audio" t with
    | .error e => (s, some e)
    | .ok b => if b then handle_audio s event else (s, Option.none)

/-- Python dict update used by `{"type": event_name, **data}`: later
bindings override earlier ones. -/
def dictInsert (d : List (String × PyVal)) (k : String) (v : PyVal) :
    List (String × PyVal) :=
  if d.any fun p => p.1 = k then
    d.map fun p => if p.1 = k then (k, v) else p
  else d ++ [(k, v)]

/-- `SimpleRealtime.send` (src/utils.py lines 109-123): raises
`Exception("RealtimeAPI is not connected")` unless connected; replaces a
falsy `data` argument by `{}` (`data = data or {}`); raises
`ValueError("data must be a dictionary")` when the (possibly replaced)
data is not a dict; otherwise builds `{"type": event_name, **data}`,
logs it, and schedules it on the wire (recorded in `sent`). -/
def send (s : SimpleRealtime) (event_name : String) (data : PyVal) :
    Except RTError SimpleRealtime :=
  if ¬ is_connected s then .error .notConnected
  else
    let data := if truthy data then data else .dict []
    match data with
    | .dict d =>
      let event : PyVal :=
        .dict (d.foldl (fun acc p => dictInsert acc p.1 p.2)
          [("type", .str event_name)])
      let s := log_event s "client" event
      .ok { s with sent := s.sent ++ [event] }
    | _ => .error .invalidPayload

/-! ## The receive loop (`SimpleRealtime._message_handler`,
src/utils.py lines 61-78)

One loop iteration observes the outcome of `await ws.recv()` plus
`json.loads` (external calls): a timeout, a connection-closed signal, or
a message whose JSON decoding either succeeded (a `PyVal`) or raised. -/

/-- Outcome of one `recv`/decode attempt inside the loop. -/
inductive RecvResult where
  | timeout
  | closed
  | message (decoded : Except RTError PyVal)

/-- Result of one iteration of `_message_handler`: keep looping, exit
cleanly (connection closed), or fall into the outer `except`, which
prints the error and awaits `disconnect()` — terminating the loop. -/
inductive HandlerOutcome where
  | next (s : SimpleRealtime)
  | exit (s : SimpleRealtime)
  | errorDisconnect (s : SimpleRealtime) (e : RTError)

/-- One iteration of `_message_handler`: with no socket it sleeps and
continues; a timeout continues; a closed signal breaks out cleanly; a
message that fails `json.loads`, or whose `receive` raises, escapes the
inner `try` to the outer `except Exception`, which disconnects and ends
the loop; a successfully received message updates the state and the
loop continues. -/
def message_handler_step (s : SimpleRealtime) (r : RecvResult) :
    HandlerOutcome :=
  match s.ws with
  | Option.none => .next s
  | some _ =>
    match r with
    | .timeout => .next s
    | .closed => .exit s
    | .message (.error e) => .errorDisconnect (disconnect s) e
    | .message (.ok data) =>
      match receive s data with
      | (s', Option.none) => .next s'
      | (s', some e) => .errorDisconnect (disconnect s') e

/-- Run `_message_handler` over a finite schedule of recv outcomes:
the loop consumes them in order until it exits or dies on an error;
outcomes after that point are never observed. -/
def run_handler (s : SimpleRealtime) : List RecvResult → SimpleRealtime
  | [] => s
  | r :: rest =>
    match message_handler_step s r with
    | .next s' => run_handler s' rest
    | .exit s' => s'
    | .errorDisconnect s' _ => s'

/-- Process a list of decoded events through `receive`, stopping at the
first raised error (as the surrounding loop would). -/
def process_events (s : SimpleRealtime) :
    List PyVal → SimpleRealtime × Option RTError
  | [] => (s, Option.none)
  | e :: rest =>
    match receive s e with
    | (s', Option.none) => process_events s' rest
    | (s', some err) => (s', some err)

/-- The transcript delta carried by an event: the `delta` string of a
`response.audio_transcript.delta` event, `""` otherwise. -/
def transcript_delta_of (e : PyVal) : String :=
  match pyDictGet e "type", pyDictGet e "delta" with
  | .ok t, .ok (.str d) =>
    if pyEqStr t "response.audio_transcript.delta" then d else ""
  | _, _ => ""

/-- Concatenation of the transcript deltas of a list of events, in
arrival order. -/
def transcript_deltas : List PyVal → String
  | [] => ""
  | e :: rest => transcript_delta_of e ++ transcript_deltas rest

/-! ## StreamingAudioRecorder (src/utils.py, lines 126-181) -/

/-- State of a `StreamingAudioRecorder`: the FIFO `audio_queue` of PCM
frames, the recording flag and the input stream handle. -/
structure StreamingAudioRecorder where
  audio_queue : List (List Int)
  is_recording : Bool
  stream : Option Unit

/-- `StreamingAudioRecorder.callback`: converts the raw byte block to
int16 samples (`np.frombuffer`) and enqueues the frame; only a malformed
block (odd byte count) can raise. -/
def callback (s : StreamingAudioRecorder) (in_data : List Nat) :
    StreamingAudioRecorder × Option RTError :=
  match np_frombuffer_int16 in_data with
  | some pcm => ({ s with audio_queue := s.audio_queue ++ [pcm] }, Option.none)
  | Option.none => (s, some .valueError)

/-- `StreamingAudioRecorder.start_recording`: a silent no-op when
already recording (the `if self.is_recording: return` branch);
otherwise opens the input stream and sets the flag. -/
def start_recording (s : StreamingAudioRecorder) :
    Except RTError StreamingAudioRecorder :=
  if s.is_recording then .ok s
  else .ok { s with stream := some (), is_recording := true }

/-- `StreamingAudioRecorder.stop_recording`: closes and clears the
stream when recording; the queue is left untouched. -/
def stop_recording (s : StreamingAudioRecorder) : StreamingAudioRecorder :=
  if s.is_recording ∧ s.stream.isSome then
    { s with stream := Option.none, is_recording := false }
  else s

/-- `StreamingAudioRecorder.get_audio_chunk`: non-blocking
`queue.get_nowait`, returning `None` when the queue is empty. -/
def get_audio_chunk (s : StreamingAudioRecorder) :
    Option (List Int) × StreamingAudioRecorder :=
  match s.audio_queue with
  | [] => (Option.none, s)
  | c :: rest => (some c, { s with audio_queue := rest })

/-- Feed a list of captured byte blocks through `callback` in order. -/
def enqueue_frames (s : StreamingAudioRecorder) (frames : List (List Nat)) :
    StreamingAudioRecorder :=
  frames.foldl (fun r f => (callback r f).1) s

/-- Collect the results of `n` successive `get_audio_chunk` calls. -/
def collect_chunks (s : StreamingAudioRecorder) :
    Nat → List (Option (List Int)) × StreamingAudioRecorder
  | 0 => ([], s)
  | n + 1 =>
    ((get_audio_chunk s).1 :: (collect_chunks (get_audio_chunk s).2 n).1,
     (collect_chunks (get_audio_chunk s).2 n).2)

/-- Whether a Python value is a dictionary (`isinstance(data, dict)`). -/
def isDict : PyVal → Bool
  | .dict _ => true
  | _ => false

/-- A `type` field value that the dispatch accepts and ignores: any
string other than the two recognized event types, or any list or
dictionary (where Python's `in` is a membership/key test that never
raises). `None` (a missing field), numbers and booleans are not of this
kind: the `in` test raises `TypeError` on them. -/
def type_field_benign : PyVal → Bool
  | .str t => ¬ (t == "response.audio_transcript.delta" ||
      t == "response.audio.delta")
  | .list _ => true
  | .dict _ => true
  | _ => false

/-! ## Concrete fixtures used by witnesses and counterexamples -/

/-- A connected client with empty transcript, logs and buffers. -/
def rtConnected : SimpleRealtime :=
  { ws := some ⟨true⟩, message_handler_task := some (), transcript := "",
    logs := [], sent := [], debug := false, has_audio_cb := true,
    audio_buffer := [] }

/-- A client that was never connected. -/
def rtDisconnected : SimpleRealtime :=
  { ws := Option.none, message_handler_task := Option.none, transcript := "",
    logs := [], sent := [], debug := false, has_audio_cb := true,
    audio_buffer := [] }

/-- A transcript-delta server event carrying the string `d`. -/
def deltaEvent (d : String) : PyVal :=
  .dict [("type", .str "response.audio_transcript.delta"), ("delta", .str d)]

/-- A recorder that is currently recording, with an empty queue. -/
def recRecording : StreamingAudioRecorder :=
  { audio_queue := [], is_recording := true, stream := some () }

/-- A recorder that is currently recording, with one queued frame. -/
def recRecordingQueued : StreamingAudioRecorder :=
  { audio_queue := [[7]], is_recording := true, stream := some () }

/-- An idle recorder with an empty queue. -/
def recIdle : StreamingAudioRecorder :=
  { audio_queue := [], is_recording := false, stream := Option.none }

/-- Three captured 2-byte blocks (one int16 sample each). -/
def framesC9 : List (List Nat) := [[0, 0], [1, 0], [2, 0]]

/-- Two transcript deltas interleaved with an unknown string-typed
event, an audio delta carrying valid base64 PCM, and a list-typed
event: all processed without error. -/
def eventsC4 : List PyVal :=
  [deltaEvent "he",
   .dict [("type", .str "session.created")],
   .dict [("type", .str "response.audio.delta"), ("delta", .str "AAEAAQ==")],
   .dict [("type", .list [.str "response.audio"])],
   deltaEvent "llo"]

/-- Every captured byte block converts under `np.frombuffer(..., int16)`
(its byte count is even). -/
def frames_decodable (frames : List (List Nat)) : Bool :=
  frames.all fun f => (np_frombuffer_int16 f).isSome

/-! ## Theorems -/

/-- C1 counterexample: with one buffered sample `5` and a request for 2
samples, the playback callback returns `[0, 0]`, not the buffered
sample followed by one zero of padding as the claim states. -/
theorem claim_C1_counterexample :
    (sd_audio_cb [5] 2).1 = [0, 0] ∧ (sd_audio_cb [5] 2).1 ≠ [5] ++ [0] := by
  constructor
  · rfl
  · decide

/-- C1 (amended): when fewer than `frame_count` samples are buffered,
the playback callback returns exactly `frame_count` samples, all of them
zero (the buffered samples are not included in the output), and it
neither raises nor blocks (it is a total function). -/
theorem claim_C1_underrun_all_silence (buf : List Int) (count : Nat)
    (h : buf.length < count) :
    (sd_audio_cb buf count).1 = List.replicate count 0 ∧
      (sd_audio_cb buf count).1.length = count := by
  have hc : ¬ count ≤ buf.length := by omega
  constructor
  · simp [sd_audio_cb, hc]
  · simp [sd_audio_cb, hc]

/-- Witness for C1 at buffer `[3, 4]` and request 5. -/
theorem claim_C1_witness :
    ([(3 : Int), 4]).length < 5 ∧
      ((sd_audio_cb [3, 4] 5).1 = List.replicate 5 0 ∧
        (sd_audio_cb [3, 4] 5).1.length = 5) :=
  ⟨by decide, claim_C1_underrun_all_silence [3, 4] 5 (by decide)⟩

/-- C10: an underrun invocation of the playback callback leaves the
buffered samples entirely unchanged, and once enough further samples
`ext` have accumulated, a later call returns a block that starts with
all the originally buffered samples. -/
theorem claim_C10_underrun_preserves_buffer (buf ext : List Int)
    (count : Nat) (h : buf.length < count)
    (hacc : count ≤ buf.length + ext.length) :
    (sd_audio_cb buf count).2 = buf ∧
      ((sd_audio_cb (buf ++ ext) count).1).take buf.length = buf := by
  have hc : ¬ count ≤ buf.length := by omega
  have hc2 : count ≤ (buf ++ ext).length := by simp; omega
  constructor
  · simp [sd_audio_cb, hc]
  · rw [sd_audio_cb, if_pos hc2]
    simp only [List.take_take]
    rw [min_eq_left (le_of_lt h), List.take_left]

/-- Witness for C10: buffer `[3, 4]`, request 5, then 3 more samples. -/
theorem claim_C10_witness :
    ([(3 : Int), 4]).length < 5 ∧ 5 ≤ ([(3 : Int), 4]).length + ([(9 : Int), 9, 9]).length ∧
      ((sd_audio_cb [3, 4] 5).2 = [3, 4] ∧
        ((sd_audio_cb ([3, 4] ++ [9, 9, 9]) 5).1).take ([(3 : Int), 4]).length = [3, 4]) :=
  ⟨by decide, by decide,
    claim_C10_underrun_preserves_buffer [3, 4] [9, 9, 9] 5 (by decide) (by decide)⟩

/-- C6 counterexample: calling `start_recording` while already recording
returns successfully with the recorder unchanged — it does not fail with
an `AlreadyRecording` error as the claim states. -/
theorem claim_C6_counterexample :
    start_recording recRecording = .ok recRecording := rfl

/-- C6 (amended): `start_recording` while already recording is a silent
no-op: it returns without error and without opening a new stream or
changing any recorder state. -/
theorem claim_C6_start_noop (r : StreamingAudioRecorder)
    (h : r.is_recording = true) : start_recording r = .ok r := by
  simp [start_recording, h]

/-- Witness for C6 on a recording recorder with a queued frame. -/
theorem claim_C6_witness :
    recRecordingQueued.is_recording = true ∧
      start_recording recRecordingQueued = .ok recRecordingQueued :=
  ⟨rfl, claim_C6_start_noop recRecordingQueued rfl⟩

/-- C7: `disconnect` is idempotent and safe from any state: a second
call returns the same (error-free) result, and afterwards the handle and
the receive-loop task are cleared, so the client reports disconnected. -/
theorem claim_C7_disconnect_idempotent (s : SimpleRealtime) :
    disconnect (disconnect s) = disconnect s ∧
      (disconnect s).ws = Option.none ∧
      (disconnect s).message_handler_task = Option.none ∧
      is_connected (disconnect s) = false := by
  cases hws : s.ws <;> simp [disconnect, hws, is_connected]

/-- C2 (evaluation at the failing input): on a message whose JSON
decoding raises, the receive loop does not drop the message and
continue — the decode error escapes the inner `try` to the outer
`except`, which disconnects and ends the loop, so a well-formed
transcript delta arriving right after the malformed message is never
processed and the connection is closed. -/
theorem claim_C2_decode_error_kills_session :
    message_handler_step rtConnected (.message (.error .decodeFailure)) =
        .errorDisconnect (disconnect rtConnected) .decodeFailure ∧
      run_handler rtConnected
          [.message (.error .decodeFailure),
           .message (.ok (deltaEvent "x"))] = disconnect rtConnected ∧
      (disconnect rtConnected).ws = Option.none ∧
      is_connected (disconnect rtConnected) = false ∧
      (disconnect rtConnected).transcript = "" := by
  refine ⟨rfl, rfl, rfl, rfl, rfl⟩

/-- C3: `send` fails with the not-connected error whenever
`is_connected()` is false at call time (no wire write is attempted,
since the raise precedes the send task), and `connect` fails with the
already-connected error when called while connected. -/
theorem claim_C3_state_guards (s1 s2 : SimpleRealtime)
    (event_name : String) (data : PyVal) (model : String)
    (handshake : Except RTError WSConn)
    (h1 : is_connected s1 = false) (h2 : is_connected s2 = true) :
    send s1 event_name data = .error .notConnected ∧
      connect s2 model handshake = .error .alreadyConnected := by
  constructor
  · simp [send, h1]
  · simp [connect, h2]

/-- Witness for C3: a commit sent while disconnected, and a connect
attempted while connected. -/
theorem claim_C3_witness :
    is_connected rtDisconnected = false ∧ is_connected rtConnected = true ∧
      send rtDisconnected "input_audio_buffer.commit" PyVal.none =
        .error .notConnected ∧
      connect rtConnected "gpt-4o-realtime-preview-2024-10-01" (.ok ⟨true⟩) =
        .error .alreadyConnected :=
  ⟨rfl, rfl,
    (claim_C3_state_guards rtDisconnected rtConnected
      "input_audio_buffer.commit" PyVal.none
      "gpt-4o-realtime-preview-2024-10-01" (.ok ⟨true⟩) rfl rfl).1,
    (claim_C3_state_guards rtDisconnected rtConnected
      "input_audio_buffer.commit" PyVal.none
      "gpt-4o-realtime-preview-2024-10-01" (.ok ⟨true⟩) rfl rfl).2⟩

/-- C8 counterexample: `send` called while connected with the empty list
`[]` — a value that is neither absent nor a dictionary — does not fail
with the invalid-payload error: `data = data or {}` replaces the falsy
list by `{}`, and the event is logged and transmitted. -/
theorem claim_C8_counterexample :
    send rtConnected "input_audio_buffer.commit" (PyVal.list []) =
      .ok { rtConnected with
              sent := [PyVal.dict
                [("type", PyVal.str "input_audio_buffer.commit")]] } := rfl

/-- C8 (amended): `send` while connected fails with the invalid-payload
error — before logging or transmitting anything — for every `data`
argument that is truthy and not a dictionary; falsy non-dictionary
values (such as `[]`, `0`, `""`) are instead silently replaced by the
empty dictionary. -/
theorem claim_C8_invalid_payload (s : SimpleRealtime)
    (event_name : String) (data : PyVal)
    (hconn : is_connected s = true) (htru : truthy data = true)
    (hdict : isDict data = false) :
    send s event_name data = .error .invalidPayload := by
  cases data <;> simp_all [send, isDict]

/-- Witness for C8: a nonempty list payload sent while connected. -/
theorem claim_C8_witness :
    is_connected rtConnected = true ∧
      truthy (PyVal.list [PyVal.int 1]) = true ∧
      isDict (PyVal.list [PyVal.int 1]) = false ∧
      send rtConnected "input_audio_buffer.commit" (PyVal.list [PyVal.int 1]) =
        .error .invalidPayload :=
  ⟨rfl, rfl, rfl,
    claim_C8_invalid_payload rtConnected "input_audio_buffer.commit"
      (PyVal.list [PyVal.int 1]) rfl rfl rfl⟩

/-! ### Helper lemmas about `log_event` and `receive` -/

/-- `log_event` only touches the log, not the transcript. -/
theorem log_event_transcript (s : SimpleRealtime) (dir : String) (e : PyVal) :
    (log_event s dir e).transcript = s.transcript := by
  unfold log_event; split <;> rfl

/-- `log_event` does not change whether an audio callback is installed. -/
theorem log_event_has_cb (s : SimpleRealtime) (dir : String) (e : PyVal) :
    (log_event s dir e).has_audio_cb = s.has_audio_cb := by
  unfold log_event; split <;> rfl

/-- `log_event` only touches the log, not the playback buffer. -/
theorem log_event_audio_buffer (s : SimpleRealtime) (dir : String) (e : PyVal) :
    (log_event s dir e).audio_buffer = s.audio_buffer := by
  unfold log_event; split <;> rfl

/-- A successfully processed event advances the transcript by exactly
its transcript delta (empty for every other event type). -/
theorem receive_ok_transcript (s : SimpleRealtime) (e : PyVal)
    (h : (receive s e).2 = Option.none) :
    (receive s e).1.transcript = s.transcript ++ transcript_delta_of e := by
  cases ht : pyDictGet e "type" with
  | error err =>
    have hrec : receive s e = (log_event s "server" e, some err) := by
      simp [receive, ht]
    rw [hrec] at h; simp at h
  | ok t =>
    cases t with
    | str tstr =>
      by_cases hts : tstr = "response.audio_transcript.delta"
      · subst hts
        have hsub : listContainsSub "response.audio_transcript.delta".data
            "response.audio".data = true := by decide
        have heq1 : pyEqStr (.str "response.audio_transcript.delta")
            "response.audio_transcript.delta" = true := by decide
        have heq2 : pyEqStr (.str "response.audio_transcript.delta")
            "response.audio.delta" = false := by decide
        cases hd : pyDictGet e "delta" with
        | error err =>
          have hrec : receive s e = (log_event s "server" e, some err) := by
            simp [receive, handle_audio, pyIn, ht, hd, hsub, heq1, heq2]
          rw [hrec] at h; simp at h
        | ok v =>
          cases v with
          | str dstr =>
            have hrec : receive s e =
                ({ log_event s "server" e with
                    transcript := (log_event s "server" e).transcript ++ dstr },
                  Option.none) := by
              simp [receive, handle_audio, pyIn, ht, hd, hsub, heq1, heq2]
            have hdelta : transcript_delta_of e = dstr := by
              simp [transcript_delta_of, ht, hd, pyEqStr]
            rw [hrec, hdelta]
            simp [log_event_transcript]
          | none =>
            have hrec : (receive s e).2 = some RTError.typeError := by
              simp [receive, handle_audio, pyIn, ht, hd, hsub, heq1, heq2]
            rw [hrec] at h; simp at h
          | int n =>
            have hrec : (receive s e).2 = some RTError.typeError := by
              simp [receive, handle_audio, pyIn, ht, hd, hsub, heq1, heq2]
            rw [hrec] at h; simp at h
          | bool b =>
            have hrec : (receive s e).2 = some RTError.typeError := by
              simp [receive, handle_audio, pyIn, ht, hd, hsub, heq1, heq2]
            rw [hrec] at h; simp at h
          | list l =>
            have hrec : (receive s e).2 = some RTError.typeError := by
              simp [receive, handle_audio, pyIn, ht, hd, hsub, heq1, heq2]
            rw [hrec] at h; simp at h
          | dict dd =>
            have hrec : (receive s e).2 = some RTError.typeError := by
              simp [receive, handle_audio, pyIn, ht, hd, hsub, heq1, heq2]
            rw [hrec] at h; simp at h
      · have hne : pyEqStr (.str tstr) "response.audio_transcript.delta" = false := by
          simp [pyEqStr, hts]
        have hdelta : transcript_delta_of e = "" := by
          unfold transcript_delta_of
          rw [ht]
          cases hd : pyDictGet e "delta" with
          | error err => rfl
          | ok v => cases v <;> simp [pyEqStr, hts]
        by_cases hc : listContainsSub tstr.data "response.audio".data
        · by_cases htsa : tstr = "response.audio.delta"
          · subst htsa
            by_cases hcb : s.has_audio_cb
            · cases hd : pyDictGet e "delta" with
              | error err =>
                have hrec : receive s e = (log_event s "server" e, some err) := by
                  simp [receive, handle_audio, pyIn, ht, hd, hc, hne,
                    pyEqStr, hts, log_event_has_cb, hcb]
                rw [hrec] at h; simp at h
              | ok v =>
                cases v with
                | str b64 =>
                  cases hb : b64decode_pcm16 b64 with
                  | error err =>
                    have hrec : receive s e = (log_event s "server" e, some err) := by
                      simp [receive, handle_audio, pyIn, ht, hd, hb, hc, hne,
                        pyEqStr, hts, log_event_has_cb, hcb]
                    rw [hrec] at h; simp at h
                  | ok samples =>
                    have hrec : receive s e =
                        ({ log_event s "server" e with
                            audio_buffer := audio_buffer_cb
                              (log_event s "server" e).audio_buffer samples },
                          Option.none) := by
                      simp [receive, handle_audio, pyIn, ht, hd, hb, hc, hne,
                        pyEqStr, hts, log_event_has_cb, hcb]
                    rw [hrec, hdelta]
                    simp [log_event_transcript]
                | none =>
                  have hrec : (receive s e).2 = some RTError.typeError := by
                    simp [receive, handle_audio, pyIn, ht, hd, hc, hne,
                      pyEqStr, hts, log_event_has_cb, hcb]
                  rw [hrec] at h; simp at h
                | int n =>
                  have hrec : (receive s e).2 = some RTError.typeError := by
                    simp [receive, handle_audio, pyIn, ht, hd, hc, hne,
                      pyEqStr, hts, log_event_has_cb, hcb]
                  rw [hrec] at h; simp at h
                | bool b =>
                  have hrec : (receive s e).2 = some RTError.typeError := by
                    simp [receive, handle_audio, pyIn, ht, hd, hc, hne,
                      pyEqStr, hts, log_event_has_cb, hcb]
                  rw [hrec] at h; simp at h
                | list l =>
                  have hrec : (receive s e).2 = some RTError.typeError := by
                    simp [receive, handle_audio, pyIn, ht, hd, hc, hne,
                      pyEqStr, hts, log_event_has_cb, hcb]
                  rw [hrec] at h; simp at h
                | dict dd =>
                  have hrec : (receive s e).2 = some RTError.typeError := by
                    simp [receive, handle_audio, pyIn, ht, hd, hc, hne,
                      pyEqStr, hts, log_event_has_cb, hcb]
                  rw [hrec] at h; simp at h
            · have hrec : receive s e = (log_event s "server" e, Option.none) := by
                simp [receive, handle_audio, pyIn, ht, hc, hne, pyEqStr,
                  hts, log_event_has_cb, hcb]
              rw [hrec, hdelta]
              simp [log_event_transcript]
          · have hrec : receive s e = (log_event s "server" e, Option.none) := by
              simp [receive, handle_audio, pyIn, ht, hc, hne, pyEqStr, hts, htsa]
            rw [hrec, hdelta]
            simp [log_event_transcript]
        · have hrec : receive s e = (log_event s "server" e, Option.none) := by
            simp [receive, pyIn, ht, hc]
          rw [hrec, hdelta]
          simp [log_event_transcript]
    | none =>
      have hrec : receive s e = (log_event s "server" e, some RTError.typeError) := by
        simp [receive, pyIn, ht]
      rw [hrec] at h; simp at h
    | int n =>
      have hrec : receive s e = (log_event s "server" e, some RTError.typeError) := by
        simp [receive, pyIn, ht]
      rw [hrec] at h; simp at h
    | bool b =>
      have hrec : receive s e = (log_event s "server" e, some RTError.typeError) := by
        simp [receive, pyIn, ht]
      rw [hrec] at h; simp at h
    | list l =>
      have hdelta : transcript_delta_of e = "" := by
        unfold transcript_delta_of
        rw [ht]
        cases hd : pyDictGet e "delta" with
        | error err => rfl
        | ok v => cases v <;> simp [pyEqStr]
      have hrec : receive s e = (log_event s "server" e, Option.none) := by
        simp [receive, pyIn, ht, handle_audio, pyEqStr]
      rw [hrec, hdelta]
      simp [log_event_transcript]
    | dict dd =>
      have hdelta : transcript_delta_of e = "" := by
        unfold transcript_delta_of
        rw [ht]
        cases hd : pyDictGet e "delta" with
        | error err => rfl
        | ok v => cases v <;> simp [pyEqStr]
      have hrec : receive s e = (log_event s "server" e, Option.none) := by
        simp [receive, pyIn, ht, handle_audio, pyEqStr]
      rw [hrec, hdelta]
      simp [log_event_transcript]

/-- C4 (amended): across any sequence of events that is processed
without a raised error, the transcript grows by exactly the
concatenation of the `response.audio_transcript.delta` deltas in
arrival order, regardless of the other interleaved event types. -/
theorem claim_C4_transcript_concatenation (events : List PyVal)
    (s : SimpleRealtime) (h : (process_events s events).2 = Option.none) :
    (process_events s events).1.transcript =
      s.transcript ++ transcript_deltas events := by
  induction events generalizing s with
  | nil => simp [process_events, transcript_deltas]
  | cons e rest ih =>
    rcases hr : receive s e with ⟨s', err⟩
    cases err with
    | none =>
      have heq : process_events s (e :: rest) = process_events s' rest := by
        simp [process_events, hr]
      have hrt := receive_ok_transcript s e (by rw [hr])
      rw [hr] at hrt
      rw [heq] at h ⊢
      rw [ih s' h, hrt]
      simp [transcript_deltas, String.append_assoc]
    | some err =>
      have heq : process_events s (e :: rest) = (s', some err) := by
        simp [process_events, hr]
      rw [heq] at h
      simp at h

/-- C4 counterexample: interleaving a server event with no `type` field
between two transcript deltas makes `receive` raise, the handler loop
disconnect, and the final transcript stops at `"a"` instead of the full
concatenation `"ab"` the claim promises. -/
theorem claim_C4_counterexample :
    (run_handler rtConnected
        [.message (.ok (deltaEvent "a")), .message (.ok (PyVal.dict [])),
         .message (.ok (deltaEvent "b"))]).transcript = "a" ∧
      "a" ≠ rtConnected.transcript ++
        transcript_deltas [deltaEvent "a", PyVal.dict [], deltaEvent "b"] :=
  ⟨rfl, by decide⟩

/-- Witness for C4: two deltas interleaved with an unknown event, an
audio delta and a list-typed event. -/
theorem claim_C4_witness :
    (process_events rtConnected eventsC4).2 = Option.none ∧
      (process_events rtConnected eventsC4).1.transcript =
        rtConnected.transcript ++ transcript_deltas eventsC4 :=
  ⟨rfl, claim_C4_transcript_concatenation eventsC4 rtConnected rfl⟩

/-- C5 counterexample: a decoded server event with no `type` field —
whose type is therefore neither recognized type — is not accepted
without error: `"response.audio" in event.get("type")` raises
`TypeError` on the `None` that `get` returns. -/
theorem claim_C5_counterexample :
    (receive rtConnected (PyVal.dict [])).2 = some RTError.typeError := rfl

/-- C5 (amended): for every decoded server event whose `type` field is
present and is either a string other than the two recognized types, or
a list or dictionary value (for which Python's `in` is an exception-free
membership/key test), the dispatch succeeds without error, logs the
event, and leaves both the transcript and the playback buffer
unchanged. Only a missing `type` field (where `get` returns `None`) or
another non-iterable `type` value makes the `in` test raise. -/
theorem claim_C5_unknown_types_ignored (s : SimpleRealtime)
    (d : List (String × PyVal)) (t : PyVal)
    (ht : pyDictGet (.dict d) "type" = .ok t)
    (htb : type_field_benign t = true) :
    receive s (.dict d) = (log_event s "server" (.dict d), Option.none) ∧
      (receive s (.dict d)).1.transcript = s.transcript ∧
      (receive s (.dict d)).1.audio_buffer = s.audio_buffer := by
  have hmain : receive s (.dict d) =
      (log_event s "server" (.dict d), Option.none) := by
    cases t with
    | str tstr =>
      have hb : (tstr == "response.audio_transcript.delta" ||
          tstr == "response.audio.delta") = false := by
        simpa [type_field_benign] using htb
      rcases Bool.or_eq_false_iff.mp hb with ⟨hb1, hb2⟩
      have h1' : tstr ≠ "response.audio_transcript.delta" := by simpa using hb1
      have h2' : tstr ≠ "response.audio.delta" := by simpa using hb2
      simp only [receive, ht, pyIn]
      by_cases hc : listContainsSub tstr.data "response.audio".data
      · simp only [hc, if_true]
        simp [handle_audio, ht, pyEqStr, h1', h2']
      · simp [hc]
    | list l => simp [receive, ht, pyIn, handle_audio, pyEqStr]
    | dict dd => simp [receive, ht, pyIn, handle_audio, pyEqStr]
    | none => simp [type_field_benign] at htb
    | int n => simp [type_field_benign] at htb
    | bool b => simp [type_field_benign] at htb
  refine ⟨hmain, ?_, ?_⟩
  · rw [hmain]; exact log_event_transcript s "server" (.dict d)
  · rw [hmain]; exact log_event_audio_buffer s "server" (.dict d)

/-- Witness for C5: a `session.created` event. -/
theorem claim_C5_witness :
    pyDictGet (.dict [("type", PyVal.str "session.created")]) "type" =
        .ok (.str "session.created") ∧
      type_field_benign (PyVal.str "session.created") = true ∧
      (receive rtConnected (.dict [("type", PyVal.str "session.created")]) =
          (log_event rtConnected "server"
            (.dict [("type", PyVal.str "session.created")]), Option.none) ∧
        (receive rtConnected
            (.dict [("type", PyVal.str "session.created")])).1.transcript =
          rtConnected.transcript ∧
        (receive rtConnected
            (.dict [("type", PyVal.str "session.created")])).1.audio_buffer =
          rtConnected.audio_buffer) :=
  ⟨rfl, by decide,
    claim_C5_unknown_types_ignored rtConnected
      [("type", PyVal.str "session.created")] (PyVal.str "session.created")
      rfl (by decide)⟩

/-! ### Helper lemmas for the capture FIFO -/

/-- One-step unfolding of `collect_chunks`. -/
theorem collect_chunks_succ (s : StreamingAudioRecorder) (n : Nat) :
    collect_chunks s (n + 1) =
      ((get_audio_chunk s).1 :: (collect_chunks (get_audio_chunk s).2 n).1,
       (collect_chunks (get_audio_chunk s).2 n).2) := rfl

/-- The capture callback appends the converted frame (if it converts)
at the tail of the FIFO. -/
theorem callback_queue (r : StreamingAudioRecorder) (f : List Nat) :
    ((callback r f).1).audio_queue =
      r.audio_queue ++ (np_frombuffer_int16 f).toList := by
  unfold callback
  cases h : np_frombuffer_int16 f <;> simp

/-- Enqueuing a list of byte blocks appends their conversions in order. -/
theorem enqueue_queue (frames : List (List Nat)) (r : StreamingAudioRecorder) :
    (enqueue_frames r frames).audio_queue =
      r.audio_queue ++ frames.filterMap np_frombuffer_int16 := by
  induction frames generalizing r with
  | nil => simp [enqueue_frames]
  | cons f fs ih =>
    have hstep : enqueue_frames r (f :: fs) =
        enqueue_frames (callback r f).1 fs := by
      simp [enqueue_frames]
    rw [hstep, ih, callback_queue]
    cases h : np_frombuffer_int16 f <;> simp [List.filterMap_cons, h]

/-- Draining a queue of `n` frames with `n + 1` calls returns the frames
in order followed by one `none`. -/
theorem collect_spec (q : List (List Int)) :
    ∀ r : StreamingAudioRecorder, r.audio_queue = q →
      (collect_chunks r (q.length + 1)).1 = q.map some ++ [Option.none] := by
  induction q with
  | nil =>
    intro r h
    rw [collect_chunks_succ]
    simp [collect_chunks, get_audio_chunk, h]
  | cons c q ih =>
    intro r h
    have hg : get_audio_chunk r = (some c, { r with audio_queue := q }) := by
      simp [get_audio_chunk, h]
    have hlen : (c :: q).length + 1 = (q.length + 1) + 1 := by simp
    rw [hlen, collect_chunks_succ, hg]
    simp only
    rw [ih { r with audio_queue := q } rfl]
    simp

/-- When every frame converts, the queue contents line up one-for-one
with the conversions of the captured blocks. -/
theorem filterMap_all_decodes (frames : List (List Nat))
    (h : frames_decodable frames = true) :
    (frames.filterMap np_frombuffer_int16).map some =
      frames.map np_frombuffer_int16 := by
  induction frames with
  | nil => rfl
  | cons f fs ih =>
    rw [frames_decodable, List.all_cons] at h
    rcases Bool.and_eq_true_iff.mp h with ⟨hf, hfs⟩
    rcases Option.isSome_iff_exists.mp hf with ⟨pcm, hpcm⟩
    simp [List.filterMap_cons, hpcm, ih hfs]

/-- `stop_recording` never discards queued frames. -/
theorem stop_recording_queue (r : StreamingAudioRecorder) :
    (stop_recording r).audio_queue = r.audio_queue := by
  unfold stop_recording; split <;> rfl

/-- C9: starting from an empty FIFO, after the capture callback enqueues
a sequence of frames, `frames.length` successive `get_audio_chunk` calls
return the frames in submission order and the next call returns `none`;
the same holds when `stop_recording` is called before draining (the
queue drains then returns empty), and every call is a total,
non-blocking function. -/
theorem claim_C9_fifo_order (r : StreamingAudioRecorder)
    (frames : List (List Nat)) (hq : r.audio_queue = [])
    (hok : frames_decodable frames = true) :
    (collect_chunks (enqueue_frames r frames) (frames.length + 1)).1 =
        frames.map np_frombuffer_int16 ++ [Option.none] ∧
      (collect_chunks (stop_recording (enqueue_frames r frames))
          (frames.length + 1)).1 =
        frames.map np_frombuffer_int16 ++ [Option.none] := by
  have hq1 : (enqueue_frames r frames).audio_queue =
      frames.filterMap np_frombuffer_int16 := by
    rw [enqueue_queue, hq, List.nil_append]
  have hlen : (frames.filterMap np_frombuffer_int16).length = frames.length := by
    have := congrArg List.length (filterMap_all_decodes frames hok)
    simpa using this
  have main1 := collect_spec (frames.filterMap np_frombuffer_int16)
      (enqueue_frames r frames) hq1
  rw [hlen, filterMap_all_decodes frames hok] at main1
  have hq2 : (stop_recording (enqueue_frames r frames)).audio_queue =
      frames.filterMap np_frombuffer_int16 := by
    rw [stop_recording_queue, hq1]
  have main2 := collect_spec (frames.filterMap np_frombuffer_int16) _ hq2
  rw [hlen, filterMap_all_decodes frames hok] at main2
  exact ⟨main1, main2⟩

/-- Witness for C9: three captured frames, four `get_audio_chunk`
calls. -/
theorem claim_C9_witness :
    recIdle.audio_queue = [] ∧ frames_decodable framesC9 = true ∧
      ((collect_chunks (enqueue_frames recIdle framesC9)
            (framesC9.length + 1)).1 =
          framesC9.map np_frombuffer_int16 ++ [Option.none] ∧
        (collect_chunks (stop_recording (enqueue_frames recIdle framesC9))
            (framesC9.length + 1)).1 =
          framesC9.map np_frombuffer_int16 ++ [Option.none]) :=
  ⟨rfl, by decide, claim_C9_fifo_order recIdle framesC9 rfl (by decide)⟩

end Spec2Proof
